import Mathlib

/-!
Shallow embedding of `src/controllers/appointmentController.js` from the
schedule-appointment-application repository, together with proofs about the
two asynchronous operation patterns (bulk-update job, single-resource async
update), the operation tracker, the synchronous CRUD handlers and the
pagination link generation.

External collaborators (the Sequelize ORM calls and the key-value cache) are
modelled as explicit parameters respectively as an explicit association list;
the controller code itself is translated line by line.
-/

namespace SchedApp

/-- A JavaScript `Error` as thrown by the ORM: `name` drives the taxonomy
dispatch in `errorHandler` (`SequelizeValidationError`,
`SequelizeUniqueConstraintError`, anything else), `message` is what the
handlers interpolate into response bodies, `errors` models the
`err.errors` array (path, message) used by the validation branch. -/
structure JsError where
  name : String
  message : String
  errors : List (String × String)
deriving Repr, DecidableEq

/-- A request body / bulk item: an attribute map plus the `id` field that
`bulkUpdateAppointments` reads for its `where: { id: appt.id }` clause. -/
structure Payload where
  id : String
  attrs : List (String × String)
deriving Repr, DecidableEq

/-- A persisted appointment row (the ORM instance). -/
structure AppointmentRecord where
  id : String
  attrs : List (String × String)
deriving Repr, DecidableEq

/-- The appointment table. -/
abbrev Db := List AppointmentRecord

/-- `Appointment.findByPk(id)`: first row whose primary key matches. -/
def findByPk (db : Db) (id : String) : Option AppointmentRecord :=
  List.find? (fun a => a.id = id) db

/-- Status field of a tracker record. -/
inductive OpStatus
  | processing
  | completed
  | failed
deriving Repr, DecidableEq

/-- A tracker record, mirroring the JS object literals stored via
`cache.set`: absent JS fields are `none` (the bulk job writes only
`status`, or `status` and `error`; the single-update pattern writes the
full record). -/
structure OpRecord where
  status : OpStatus
  resourceType : Option String := none
  resourceId : Option String := none
  operation : Option String := none
  data : Option Payload := none
  result : Option AppointmentRecord := none
  error : Option String := none
deriving Repr, DecidableEq

/-- The key-value cache backing the operation tracker. -/
abbrev Cache := List (String × OpRecord)

/-- `cache.set(key, value)`: store or overwrite. -/
def cacheSet (c : Cache) (k : String) (v : OpRecord) : Cache :=
  (k, v) :: List.filter (fun p => p.1 ≠ k) c

/-- `cache.get(key)`. -/
def cacheGet (c : Cache) (k : String) : Option OpRecord :=
  Option.map Prod.snd (List.find? (fun p => p.1 = k) c)

/-- Apply a list of `cache.set` writes in order. -/
def applyWrites (c : Cache) (ws : List (String × OpRecord)) : Cache :=
  List.foldl (fun c p => cacheSet c p.1 p.2) c ws

/-- Lower-case hexadecimal digit character, as produced when a UUID is
rendered. -/
def hexChar (n : Nat) : Char :=
  if n < 10 then Char.ofNat (48 + n) else Char.ofNat (87 + n)

/-- Fixed-width big-endian hexadecimal rendering of `n`. -/
def hexStr : Nat → Nat → List Char
  | 0, _ => []
  | len + 1, n => hexStr len (n / 16) ++ [hexChar (n % 16)]

/-- The character list of a version-4 UUID built from 122 random bits
(`seed`): groups of 8, 4, 4, 4 and 12 hex digits separated by dashes, with
the version nibble fixed to `4` and the variant nibble in `8..b`, exactly
the format of `crypto.randomUUID()`. -/
def uuidChars (seed : Nat) : List Char :=
  hexStr 8 (seed % 2 ^ 32) ++ '-' ::
  (hexStr 4 (seed / 2 ^ 32 % 2 ^ 16) ++ '-' ::
  ('4' :: hexStr 3 (seed / 2 ^ 48 % 2 ^ 12) ++ '-' ::
  (hexChar (8 + seed / 2 ^ 60 % 4) :: hexStr 3 (seed / 2 ^ 62 % 2 ^ 12) ++ '-' ::
  hexStr 12 (seed / 2 ^ 74 % 2 ^ 48))))

/-- `crypto.randomUUID()`, with the 122 random bits passed explicitly. -/
def randomUUID (seed : Nat) : String :=
  String.mk (uuidChars seed)

theorem hexStr_length (len n : Nat) : (hexStr len n).length = len := by
  induction len generalizing n with
  | zero => rfl
  | succ l ih => simp [hexStr, ih]

theorem randomUUID_ne_empty (seed : Nat) : randomUUID seed ≠ "" := by
  intro h
  have hlist : uuidChars seed = [] := by
    have := congrArg String.data h
    simpa [randomUUID] using this
  have : (uuidChars seed).length = 0 := by rw [hlist]; rfl
  simp [uuidChars, hexStr_length] at this

/-- The parts of the Express request the controllers read. -/
structure Request where
  paramsId : String
  body : Payload
  protocol : String
  host : String
deriving Repr, DecidableEq

/-- The template shared by every handler:
`req.protocol + "://" + req.get("host")`. -/
def reqBaseUrl (req : Request) : String :=
  req.protocol ++ "://" ++ req.host

/-- The observable parts of a controller response. Each handler fills
exactly the fields its JS counterpart puts in the status line, the
`Location` header and the JSON body; absent fields are `none`. -/
structure Response where
  status : Nat
  location : Option String := none
  message : Option String := none
  statusUrl : Option String := none
  operationId : Option String := none
  error : Option String := none
  code : Option String := none
  details : List (String × String) := []
  appt : Option AppointmentRecord := none
  links : List (String × String × String) := []
deriving Repr, DecidableEq

/-- Row attribute read (`appointment.scheduleId` etc.); a missing field
interpolates as the string `undefined`, as in JS template literals. -/
def attrOf (a : AppointmentRecord) (k : String) : String :=
  Option.getD (Option.map Prod.snd (List.find? (fun p => p.1 = k) a.attrs)) "undefined"

/-- `getAppointmentById` (lines 78-133).  Found: 200 with the row and its
six `_links` entries.  Not found: the 404 branch builds a body that reads
`baseUrl`, but `baseUrl` is declared with `const` inside the found branch
block and is not in scope in the else block; evaluating the body therefore
throws `ReferenceError: baseUrl is not defined`, which the surrounding
catch turns into a 500 with that message. -/
def getAppointmentById (db : Db) (req : Request) : Response :=
  match findByPk db req.paramsId with
  | some a =>
    let base := reqBaseUrl req
    { status := 200
      appt := some a
      links :=
        [("self", base ++ "/appointments/" ++ a.id, "GET"),
         ("schedule", base ++ "/schedules/" ++ attrOf a "scheduleId", "GET"),
         ("user", base ++ "/users/" ++ attrOf a "userId", "GET"),
         ("collection", base ++ "/appointments", "GET"),
         ("update", base ++ "/appointments/" ++ a.id, "PUT"),
         ("delete", base ++ "/appointments/" ++ a.id, "DELETE")] }
  | none =>
    { status := 500, error := some "baseUrl is not defined" }

/-- `createAppointment` (lines 136-152): one `Appointment.create` call;
success answers 201 with a `Location` header, every caught error answers
400 with the error message. The ORM call is passed in as `create`. -/
def createAppointment (create : Payload → Except JsError AppointmentRecord)
    (req : Request) : Response :=
  match create req.body with
  | Except.ok a =>
    { status := 201
      location := some (reqBaseUrl req ++ "/appointments/" ++ a.id)
      appt := some a }
  | Except.error e => { status := 400, error := some e.message }

/-- `updateAppointment` (lines 155-167): find, then `appointment.update`;
missing row answers 404, every caught error answers 400. `upd` is the ORM
instance update; on success the mutated row replaces the old one. -/
def updateAppointment (upd : AppointmentRecord → Payload → Except JsError AppointmentRecord)
    (db : Db) (req : Request) : Db × Response :=
  match findByPk db req.paramsId with
  | some a =>
    match upd a req.body with
    | Except.ok a2 =>
      (List.map (fun x => if x.id = a.id then a2 else x) db,
       { status := 200, appt := some a2 })
    | Except.error e => (db, { status := 400, error := some e.message })
  | none => (db, { status := 404, message := some "Appointment not found" })

/-- `deleteAppointment` (lines 170-182): find, then `appointment.destroy`;
missing row answers 404, every caught error answers 500. -/
def deleteAppointment (destroy : Db → AppointmentRecord → Except JsError Db)
    (db : Db) (req : Request) : Db × Response :=
  match findByPk db req.paramsId with
  | some a =>
    match destroy db a with
    | Except.ok db2 => (db2, { status := 200, message := some "Appointment deleted" })
    | Except.error e => (db, { status := 500, error := some e.message })
  | none => (db, { status := 404, message := some "Appointment not found" })

/-- `errorHandler` (lines 253-280): dispatch on `err.name`, mapping
validation errors to 400, unique-constraint violations to 409 and
everything else to 500. -/
def errorHandler (err : JsError) : Response :=
  if err.name = "SequelizeValidationError" then
    { status := 400, code := some "VALIDATION_ERROR",
      message := some "Invalid input data", details := err.errors }
  else if err.name = "SequelizeUniqueConstraintError" then
    { status := 409, code := some "CONFLICT",
      message := some "Resource already exists" }
  else
    { status := 500, code := some "INTERNAL_ERROR",
      message := some "An unexpected error occurred" }

/-- What `bulkUpdateAppointments` (lines 223-251) does before returning:
derive `jobId` from the clock (`Date.now().toString()`), answer 202 with
the status URL, and leave the item list for the `process.nextTick`
callback.  No tracker record is written at acceptance time. -/
structure BulkResult where
  response : Response
  jobId : String
  items : List Payload
deriving Repr, DecidableEq

/-- The synchronous part of `bulkUpdateAppointments`; `now` is the
`Date.now()` reading at acceptance. -/
def bulkUpdateAppointments (now : Nat) (appointments : List Payload) : BulkResult :=
  let jobId := Nat.repr now
  { response :=
      { status := 202
        message := some "Update job accepted"
        statusUrl := some ("/appointments/jobs/" ++ jobId) }
    jobId := jobId
    items := appointments }

/-- The `for (const appt of appointments)` loop inside the bulk callback:
apply `Appointment.update(appt, { where: { id: appt.id } })` to each item
in list order, stopping at the first ORM error.  `updateWhere` is the ORM
static update, given the table, the payload and the id from the
controller's where clause.  Returns the table after the applied prefix and
the triggering error, if any. -/
def runBulkItems (updateWhere : Db → Payload → String → Except JsError Db) :
    Db → List Payload → Db × Option JsError
  | db, [] => (db, none)
  | db, appt :: rest =>
    match updateWhere db appt appt.id with
    | Except.ok db2 => runBulkItems updateWhere db2 rest
    | Except.error e => (db, some e)

/-- The `process.nextTick` callback of `bulkUpdateAppointments`: run the
loop, then set the tracker key to `{status: completed}` or
`{status: failed, error: message}`.  Returns the final table and the cache
writes the callback performs, in order. -/
def bulkTask (updateWhere : Db → Payload → String → Except JsError Db)
    (db : Db) (jobId : String) (items : List Payload) :
    Db × List (String × OpRecord) :=
  let r := runBulkItems updateWhere db items
  match r.2 with
  | none => (r.1, [(jobId, { status := OpStatus.completed })])
  | some e =>
    (r.1, [(jobId, { status := OpStatus.failed, error := some e.message })])

/-- The closure captured by `processAppointmentUpdate(operationId,
appointment, req.body)` when `updateAppointmentAsync` schedules it. -/
structure PendingUpdate where
  operationId : String
  appt : AppointmentRecord
  updateData : Payload
deriving Repr, DecidableEq

/-- Everything `updateAppointmentAsync` (lines 282-322) has done by the
time its HTTP response is sent: the response itself, the cache writes
already performed (in order), the scheduled but not yet executed
background task, and the table, which the handler only reads. -/
structure AsyncResult where
  response : Response
  writes : List (String × OpRecord)
  task : Option PendingUpdate
  db : Db
deriving Repr, DecidableEq

/-- `updateAppointmentAsync`: look the row up; absent answers 404 with no
tracker write and no task; present writes the `processing` record carrying
the request body, schedules `processAppointmentUpdate` and answers 202
with `Location` set to the status URL and the operation id in the body. -/
def updateAppointmentAsync (db : Db) (req : Request) (uuidSeed : Nat) : AsyncResult :=
  match findByPk db req.paramsId with
  | none =>
    { response := { status := 404, message := some "Appointment not found" }
      writes := []
      task := none
      db := db }
  | some appt =>
    let operationId := randomUUID uuidSeed
    let statusUrl := reqBaseUrl req ++ "/operations/" ++ operationId
    { response :=
        { status := 202
          location := some statusUrl
          message := some "Update request accepted"
          statusUrl := some statusUrl
          operationId := some operationId }
      writes :=
        [(operationId,
          { status := OpStatus.processing
            resourceType := some "appointment"
            resourceId := some req.paramsId
            operation := some "update"
            data := some req.body })]
      task := some { operationId := operationId, appt := appt, updateData := req.body }
      db := db }

/-- `processAppointmentUpdate` (lines 325-351), run after the simulated
delay: apply `appointment.update(updateData)`; on success overwrite the
tracker record with `completed` and the updated row, on exception with
`failed` and the error message.  Returns the table afterwards and the
cache writes the task performs, in order. -/
def processAppointmentUpdate
    (upd : AppointmentRecord → Payload → Except JsError AppointmentRecord)
    (db : Db) (t : PendingUpdate) : Db × List (String × OpRecord) :=
  match upd t.appt t.updateData with
  | Except.ok a2 =>
    (List.map (fun x => if x.id = t.appt.id then a2 else x) db,
     [(t.operationId,
       { status := OpStatus.completed
         resourceType := some "appointment"
         resourceId := some a2.id
         operation := some "update"
         result := some a2 })])
  | Except.error e =>
    (db,
     [(t.operationId,
       { status := OpStatus.failed
         resourceType := some "appointment"
         resourceId := some t.appt.id
         operation := some "update"
         error := some e.message })])

/-- The full ordered list of cache writes produced by one async
single-resource update request together with its background task. -/
def asyncUpdateTrace
    (upd : AppointmentRecord → Payload → Except JsError AppointmentRecord)
    (db : Db) (req : Request) (uuidSeed : Nat) : List (String × OpRecord) :=
  let r := updateAppointmentAsync db req uuidSeed
  match r.task with
  | some t => r.writes ++ (processAppointmentUpdate upd r.db t).2
  | none => r.writes

/-- A query-string parameter as the destructuring
`const { page = 1, limit = 10 } = req.query` sees it: the numeric default
when absent, the raw string when supplied.  The model covers canonical
decimal strings; those are the values for which the JS coercions below are
reproduced exactly. -/
inductive QVal
  | num (n : Nat)
  | str (s : String)
deriving Repr, DecidableEq

/-- JS numeric coercion, as applied by `<`, `>`, `-` and `/` to a
canonical decimal string: fold the digits left to right.  On strings with
non-digit characters JS yields `NaN` instead, so theorems instantiate the
string case only with canonical numerals. -/
def QVal.toNum : QVal → Nat
  | QVal.num n => n
  | QVal.str s => List.foldl (fun n c => n * 10 + (c.toNat - 48)) 0 s.data

/-- Template-literal rendering of the raw value (`${page}`). -/
def QVal.render : QVal → String
  | QVal.num n => Nat.repr n
  | QVal.str s => s

/-- Template-literal rendering of `${page+1}`: numeric addition on a
number, but string concatenation when the value is a string. -/
def QVal.addOne : QVal → String
  | QVal.num n => Nat.repr (n + 1)
  | QVal.str s => s ++ "1"

/-- Template-literal rendering of `${page-1}`: `-` coerces a string to a
number, so both cases subtract (used only under the `page > 1` guard, so
the truncated subtraction agrees with JS). -/
def QVal.subOne : QVal → String
  | QVal.num n => Nat.repr (n - 1)
  | QVal.str s => Nat.repr (QVal.toNum (QVal.str s) - 1)

/-- The observable parts of the `getAppointments` listing response. -/
structure ListResponse where
  status : Nat
  total : Nat
  page : QVal
  limit : QVal
  totalPages : Nat
  listLinks : List (String × String)
deriving Repr, DecidableEq

/-- `getAppointments` (lines 7-75) for a query matching `count` rows:
`totalPages = Math.ceil(count / limit)` (the ceiling division below agrees
with JS whenever `limit` coerces to a positive number); `self` is always
present, `first`/`last` only when `totalPages > 0`, `prev` additionally
requires `page > 1` and `next` requires `page < totalPages`, both
comparisons after numeric coercion. -/
def getAppointments (count : Nat) (req : Request) (page limit : QVal) : ListResponse :=
  let totalPages := (count + QVal.toNum limit - 1) / QVal.toNum limit
  let base := reqBaseUrl req ++ "/appointments"
  let tail := "&limit=" ++ QVal.render limit
  let self := ("self", base ++ "?page=" ++ QVal.render page ++ tail)
  let listLinks :=
    if totalPages > 0 then
      [self,
       ("first", base ++ "?page=1" ++ tail),
       ("last", base ++ "?page=" ++ Nat.repr totalPages ++ tail)] ++
      (if QVal.toNum page > 1 then
        [("prev", base ++ "?page=" ++ QVal.subOne page ++ tail)] else []) ++
      (if QVal.toNum page < totalPages then
        [("next", base ++ "?page=" ++ QVal.addOne page ++ tail)] else [])
    else [self]
  { status := 200, total := count, page := page, limit := limit,
    totalPages := totalPages, listLinks := listLinks }

/-- Link lookup by relation name in a listing response. -/
def getLink (r : ListResponse) (rel : String) : Option String :=
  Option.map Prod.snd (List.find? (fun p => p.1 = rel) r.listLinks)

/-- A concrete request used to instantiate theorems on sample inputs. -/
def sampleReq (id : String) : Request :=
  { paramsId := id, body := { id := "", attrs := [("status", "booked")] },
    protocol := "http", host := "h" }

/-- A one-row sample table. -/
def sampleDb : Db :=
  [{ id := "a1", attrs := [("status", "free")] }]

/-- A sample ORM instance update that always succeeds by replacing the
attribute map with the payload attributes. -/
def sampleUpd (a : AppointmentRecord) (p : Payload) : Except JsError AppointmentRecord :=
  Except.ok { id := a.id, attrs := p.attrs }

/-- A sample ORM static update that fails on the item with id `bad` and
otherwise leaves the table unchanged. -/
def sampleUpdateWhere (db : Db) (p : Payload) (whereId : String) : Except JsError Db :=
  if whereId = "bad" then
    Except.error { name := "SequelizeValidationError", message := "boom", errors := [] }
  else Except.ok (List.map (fun x => if x.id = p.id then { x with attrs := p.attrs } else x) db)

/-- C1: for every async single-resource update request whose target
appointment exists, the handler writes the `processing` tracker record
carrying the original request payload before sending the response, while
the table is untouched (the mutation sits in the still-unrun scheduled
task); the immediate response has status 202, a `Location` header equal to
the status URL, and a body containing the non-empty operation id and the
status URL. -/
theorem async_update_accepted_contract
    (db : Db) (req : Request) (seed : Nat) (cache : Cache)
    (appt : AppointmentRecord) (h : findByPk db req.paramsId = some appt) :
    (updateAppointmentAsync db req seed).response.status = 202 ∧
    (updateAppointmentAsync db req seed).response.location =
      some (reqBaseUrl req ++ "/operations/" ++ randomUUID seed) ∧
    (updateAppointmentAsync db req seed).response.statusUrl =
      some (reqBaseUrl req ++ "/operations/" ++ randomUUID seed) ∧
    (updateAppointmentAsync db req seed).response.operationId = some (randomUUID seed) ∧
    randomUUID seed ≠ "" ∧
    cacheGet (applyWrites cache (updateAppointmentAsync db req seed).writes)
        (randomUUID seed) =
      some { status := OpStatus.processing, resourceType := some "appointment",
             resourceId := some req.paramsId, operation := some "update",
             data := some req.body } ∧
    (updateAppointmentAsync db req seed).db = db ∧
    (updateAppointmentAsync db req seed).task =
      some { operationId := randomUUID seed, appt := appt, updateData := req.body } := by
  refine ⟨?_, ?_, ?_, ?_, randomUUID_ne_empty seed, ?_, ?_, ?_⟩ <;>
    simp [updateAppointmentAsync, h, cacheGet, applyWrites, cacheSet]

theorem async_update_accepted_contract_witness :
    findByPk sampleDb (sampleReq "a1").paramsId =
      some { id := "a1", attrs := [("status", "free")] } ∧
    ((updateAppointmentAsync sampleDb (sampleReq "a1") 7).response.status = 202 ∧
     (updateAppointmentAsync sampleDb (sampleReq "a1") 7).response.location =
       some (reqBaseUrl (sampleReq "a1") ++ "/operations/" ++ randomUUID 7) ∧
     (updateAppointmentAsync sampleDb (sampleReq "a1") 7).response.statusUrl =
       some (reqBaseUrl (sampleReq "a1") ++ "/operations/" ++ randomUUID 7) ∧
     (updateAppointmentAsync sampleDb (sampleReq "a1") 7).response.operationId =
       some (randomUUID 7) ∧
     randomUUID 7 ≠ "" ∧
     cacheGet (applyWrites [] (updateAppointmentAsync sampleDb (sampleReq "a1") 7).writes)
         (randomUUID 7) =
       some { status := OpStatus.processing, resourceType := some "appointment",
              resourceId := some (sampleReq "a1").paramsId, operation := some "update",
              data := some (sampleReq "a1").body } ∧
     (updateAppointmentAsync sampleDb (sampleReq "a1") 7).db = sampleDb ∧
     (updateAppointmentAsync sampleDb (sampleReq "a1") 7).task =
       some { operationId := randomUUID 7, appt := { id := "a1", attrs := [("status", "free")] },
              updateData := (sampleReq "a1").body }) :=
  ⟨by decide,
   async_update_accepted_contract sampleDb (sampleReq "a1") 7 []
     { id := "a1", attrs := [("status", "free")] } (by decide)⟩

/-- C5: for every async single-resource update request whose target does
not exist, the handler answers 404 with the not-found message, performs no
cache write, schedules no task, and the combined request-plus-task write
trace is empty: no operation record is ever created. -/
theorem async_update_not_found_no_write
    (upd : AppointmentRecord → Payload → Except JsError AppointmentRecord)
    (db : Db) (req : Request) (seed : Nat)
    (h : findByPk db req.paramsId = none) :
    (updateAppointmentAsync db req seed).response.status = 404 ∧
    (updateAppointmentAsync db req seed).response.message =
      some "Appointment not found" ∧
    (updateAppointmentAsync db req seed).writes = [] ∧
    (updateAppointmentAsync db req seed).task = none ∧
    asyncUpdateTrace upd db req seed = [] := by
  refine ⟨?_, ?_, ?_, ?_, ?_⟩ <;> simp [updateAppointmentAsync, asyncUpdateTrace, h]

theorem async_update_not_found_no_write_witness :
    findByPk sampleDb (sampleReq "zz").paramsId = none ∧
    ((updateAppointmentAsync sampleDb (sampleReq "zz") 7).response.status = 404 ∧
     (updateAppointmentAsync sampleDb (sampleReq "zz") 7).response.message =
       some "Appointment not found" ∧
     (updateAppointmentAsync sampleDb (sampleReq "zz") 7).writes = [] ∧
     (updateAppointmentAsync sampleDb (sampleReq "zz") 7).task = none ∧
     asyncUpdateTrace sampleUpd sampleDb (sampleReq "zz") 7 = []) :=
  ⟨by decide,
   async_update_not_found_no_write sampleUpd sampleDb (sampleReq "zz") 7 (by decide)⟩

/-- C2: for every bulk-update submission, the background task run for the
returned job id ends with the tracker key bound to a terminal record:
`{status: completed}` when every per-item update succeeds, a record with
status `failed` when some update raises; the key is never left unset after
the task completes. -/
theorem bulk_job_reaches_terminal
    (updateWhere : Db → Payload → String → Except JsError Db)
    (db : Db) (now : Nat) (body : List Payload) (cache : Cache) :
    (∃ rec,
      cacheGet
          (applyWrites cache
            (bulkTask updateWhere db (bulkUpdateAppointments now body).jobId
              (bulkUpdateAppointments now body).items).2)
          (bulkUpdateAppointments now body).jobId = some rec ∧
        (rec.status = OpStatus.completed ∨ rec.status = OpStatus.failed)) ∧
    ((runBulkItems updateWhere db body).2 = none →
      cacheGet
          (applyWrites cache
            (bulkTask updateWhere db (bulkUpdateAppointments now body).jobId
              (bulkUpdateAppointments now body).items).2)
          (bulkUpdateAppointments now body).jobId =
        some { status := OpStatus.completed }) ∧
    (∀ e, (runBulkItems updateWhere db body).2 = some e →
      cacheGet
          (applyWrites cache
            (bulkTask updateWhere db (bulkUpdateAppointments now body).jobId
              (bulkUpdateAppointments now body).items).2)
          (bulkUpdateAppointments now body).jobId =
        some { status := OpStatus.failed, error := some e.message }) := by
  cases hr : (runBulkItems updateWhere db body).2 with
  | none =>
    refine ⟨⟨{ status := OpStatus.completed }, ?_, Or.inl rfl⟩, fun _ => ?_, fun e he => ?_⟩ <;>
      simp_all [bulkTask, bulkUpdateAppointments, cacheGet, applyWrites, cacheSet, hr]
  | some e =>
    refine ⟨⟨{ status := OpStatus.failed, error := some e.message }, ?_, Or.inr rfl⟩,
      fun hc => ?_, fun e2 he2 => ?_⟩ <;>
      simp_all [bulkTask, bulkUpdateAppointments, cacheGet, applyWrites, cacheSet, hr]

theorem bulk_job_reaches_terminal_witness :
    (∃ rec,
      cacheGet
          (applyWrites []
            (bulkTask sampleUpdateWhere sampleDb
              (bulkUpdateAppointments 1700000000000 []).jobId
              (bulkUpdateAppointments 1700000000000 []).items).2)
          (bulkUpdateAppointments 1700000000000 []).jobId = some rec ∧
        (rec.status = OpStatus.completed ∨ rec.status = OpStatus.failed)) ∧
    ((runBulkItems sampleUpdateWhere sampleDb []).2 = none →
      cacheGet
          (applyWrites []
            (bulkTask sampleUpdateWhere sampleDb
              (bulkUpdateAppointments 1700000000000 []).jobId
              (bulkUpdateAppointments 1700000000000 []).items).2)
          (bulkUpdateAppointments 1700000000000 []).jobId =
        some { status := OpStatus.completed }) ∧
    (∀ e, (runBulkItems sampleUpdateWhere sampleDb []).2 = some e →
      cacheGet
          (applyWrites []
            (bulkTask sampleUpdateWhere sampleDb
              (bulkUpdateAppointments 1700000000000 []).jobId
              (bulkUpdateAppointments 1700000000000 []).items).2)
          (bulkUpdateAppointments 1700000000000 []).jobId =
        some { status := OpStatus.failed, error := some e.message }) :=
  bulk_job_reaches_terminal sampleUpdateWhere sampleDb 1700000000000 [] []

/-- C3: when a bulk run raises, the items were applied sequentially in
list order: there is an index `k` such that the final table is exactly the
table after applying the prefix strictly before `k` (so earlier items stay
applied and later items are never reached), item `k` is the one that
raised, and the job tracker record is `failed` with the message of that
triggering error. -/
theorem bulk_failure_prefix_applied
    (updateWhere : Db → Payload → String → Except JsError Db)
    (db db2 : Db) (items : List Payload) (e : JsError) (jobId : String)
    (h : runBulkItems updateWhere db items = (db2, some e)) :
    (∃ k, ∃ hk : k < items.length,
      runBulkItems updateWhere db (List.take k items) = (db2, none) ∧
      updateWhere db2 (items.get ⟨k, hk⟩) (items.get ⟨k, hk⟩).id = Except.error e) ∧
    bulkTask updateWhere db jobId items =
      (db2, [(jobId, { status := OpStatus.failed, error := some e.message })]) := by
  refine ⟨?_, ?_⟩
  · induction items generalizing db with
    | nil => simp [runBulkItems] at h
    | cons a rest ih =>
      rw [runBulkItems] at h
      cases hu : updateWhere db a a.id with
      | ok dbm =>
        rw [hu] at h
        obtain ⟨k, hk, htake, hfail⟩ := ih dbm h
        exact ⟨k + 1, Nat.succ_lt_succ hk, by simpa [runBulkItems, hu] using htake, hfail⟩
      | error e0 =>
        rw [hu] at h
        obtain ⟨h1, h2⟩ := Prod.mk.injEq .. ▸ h
        cases h2
        exact ⟨0, Nat.succ_pos _, by simpa [runBulkItems] using h1.symm ▸ rfl,
          by rw [← h1]; simpa using hu⟩
  · simp [bulkTask, h]

theorem bulk_failure_prefix_applied_witness :
    runBulkItems sampleUpdateWhere sampleDb
        [{ id := "a1", attrs := [("status", "moved")] }, { id := "bad", attrs := [] },
         { id := "a9", attrs := [] }] =
      ([{ id := "a1", attrs := [("status", "moved")] }],
       some { name := "SequelizeValidationError", message := "boom", errors := [] }) ∧
    ((∃ k, ∃ hk : k <
        (([{ id := "a1", attrs := [("status", "moved")] }, { id := "bad", attrs := [] },
           { id := "a9", attrs := [] }] : List Payload)).length,
      runBulkItems sampleUpdateWhere sampleDb
          (List.take k
            [{ id := "a1", attrs := [("status", "moved")] }, { id := "bad", attrs := [] },
             { id := "a9", attrs := [] }]) =
        ([{ id := "a1", attrs := [("status", "moved")] }], none) ∧
      sampleUpdateWhere [{ id := "a1", attrs := [("status", "moved")] }]
          (List.get
            [{ id := "a1", attrs := [("status", "moved")] }, { id := "bad", attrs := [] },
             { id := "a9", attrs := [] }] ⟨k, hk⟩)
          (List.get
            [{ id := "a1", attrs := [("status", "moved")] }, { id := "bad", attrs := [] },
             { id := "a9", attrs := [] }] ⟨k, hk⟩).id =
        Except.error { name := "SequelizeValidationError", message := "boom", errors := [] }) ∧
    bulkTask sampleUpdateWhere sampleDb "j1"
        [{ id := "a1", attrs := [("status", "moved")] }, { id := "bad", attrs := [] },
         { id := "a9", attrs := [] }] =
      ([{ id := "a1", attrs := [("status", "moved")] }],
       [("j1", { status := OpStatus.failed, error := some "boom" })])) :=
  ⟨by decide,
   bulk_failure_prefix_applied sampleUpdateWhere sampleDb
     [{ id := "a1", attrs := [("status", "moved")] }]
     [{ id := "a1", attrs := [("status", "moved")] }, { id := "bad", attrs := [] },
      { id := "a9", attrs := [] }]
     { name := "SequelizeValidationError", message := "boom", errors := [] } "j1"
     (by decide)⟩

/-- C4 counterexample: the per-id claim fails globally.  Two distinct
bulk submissions accepted in the same clock tick share one job id; run in
tick-queue order, their two background tasks produce a combined write
trace in which the first write to that id is already terminal
(`completed`) and a second, different write (`failed`) to the same id
lands after it — a write after a terminal state, and two terminal states
for one id. -/
theorem tracker_rewrite_after_terminal :
    (bulkUpdateAppointments 1700000000000
        [{ id := "a1", attrs := [("status", "moved")] }]).jobId =
      (bulkUpdateAppointments 1700000000000 [{ id := "bad", attrs := [] }]).jobId ∧
    (bulkUpdateAppointments 1700000000000
        [{ id := "a1", attrs := [("status", "moved")] }]).items ≠
      (bulkUpdateAppointments 1700000000000 [{ id := "bad", attrs := [] }]).items ∧
    (bulkTask sampleUpdateWhere sampleDb
        (bulkUpdateAppointments 1700000000000
          [{ id := "a1", attrs := [("status", "moved")] }]).jobId
        (bulkUpdateAppointments 1700000000000
          [{ id := "a1", attrs := [("status", "moved")] }]).items).2 ++
      (bulkTask sampleUpdateWhere sampleDb
        (bulkUpdateAppointments 1700000000000 [{ id := "bad", attrs := [] }]).jobId
        (bulkUpdateAppointments 1700000000000 [{ id := "bad", attrs := [] }]).items).2 =
      [("1700000000000", { status := OpStatus.completed }),
       ("1700000000000", { status := OpStatus.failed, error := some "boom" })] ∧
    ({ status := OpStatus.completed } : OpRecord).status ≠ OpStatus.processing ∧
    ({ status := OpStatus.completed } : OpRecord) ≠
      { status := OpStatus.failed, error := some "boom" } := by
  exact ⟨rfl, by decide, by decide, by decide, by decide⟩

/-- C4 amended: per writer, the write trace to a tracked id is exactly
one transition to a terminal state and nothing afterwards.  For an
accepted async single update the full trace of cache writes is the
initial `processing` record followed by exactly one terminal record
(`completed` or `failed`), both to the operation id, with no later write;
for a bulk job (initially absent from the tracker) the task performs
exactly one write, a terminal record for the job id.  Globally the per-id
property needs distinct ids: two bulk submissions in the same clock tick
share one job id and the second task writes that id again after the first
terminal record (the counterexample above). -/
theorem tracker_single_transition
    (upd : AppointmentRecord → Payload → Except JsError AppointmentRecord)
    (db : Db) (req : Request) (seed : Nat) (appt : AppointmentRecord)
    (h : findByPk db req.paramsId = some appt)
    (updateWhere : Db → Payload → String → Except JsError Db)
    (db2 : Db) (jobId : String) (items : List Payload) :
    (∃ term,
      asyncUpdateTrace upd db req seed =
        [(randomUUID seed,
          { status := OpStatus.processing, resourceType := some "appointment",
            resourceId := some req.paramsId, operation := some "update",
            data := some req.body }),
         (randomUUID seed, term)] ∧
      (term.status = OpStatus.completed ∨ term.status = OpStatus.failed)) ∧
    (∃ bterm,
      (bulkTask updateWhere db2 jobId items).2 = [(jobId, bterm)] ∧
      (bterm.status = OpStatus.completed ∨ bterm.status = OpStatus.failed)) := by
  constructor
  · cases hu : upd appt req.body with
    | ok a2 =>
      refine ⟨{ status := OpStatus.completed, resourceType := some "appointment",
                resourceId := some a2.id, operation := some "update",
                result := some a2 }, ?_, Or.inl rfl⟩
      simp [asyncUpdateTrace, updateAppointmentAsync, h, processAppointmentUpdate, hu]
    | error e =>
      refine ⟨{ status := OpStatus.failed, resourceType := some "appointment",
                resourceId := some appt.id, operation := some "update",
                error := some e.message }, ?_, Or.inr rfl⟩
      simp [asyncUpdateTrace, updateAppointmentAsync, h, processAppointmentUpdate, hu]
  · cases hr : (runBulkItems updateWhere db2 items).2 with
    | none =>
      exact ⟨{ status := OpStatus.completed }, by simp [bulkTask, hr], Or.inl rfl⟩
    | some e =>
      exact ⟨{ status := OpStatus.failed, error := some e.message },
        by simp [bulkTask, hr], Or.inr rfl⟩

theorem tracker_single_transition_witness :
    findByPk sampleDb (sampleReq "a1").paramsId =
      some { id := "a1", attrs := [("status", "free")] } ∧
    ((∃ term,
      asyncUpdateTrace sampleUpd sampleDb (sampleReq "a1") 7 =
        [(randomUUID 7,
          { status := OpStatus.processing, resourceType := some "appointment",
            resourceId := some (sampleReq "a1").paramsId, operation := some "update",
            data := some (sampleReq "a1").body }),
         (randomUUID 7, term)] ∧
      (term.status = OpStatus.completed ∨ term.status = OpStatus.failed)) ∧
    (∃ bterm,
      (bulkTask sampleUpdateWhere sampleDb "j2"
        [{ id := "a1", attrs := [("status", "moved")] }]).2 = [("j2", bterm)] ∧
      (bterm.status = OpStatus.completed ∨ bterm.status = OpStatus.failed))) :=
  ⟨by decide,
   tracker_single_transition sampleUpd sampleDb (sampleReq "a1") 7
     { id := "a1", attrs := [("status", "free")] } (by decide)
     sampleUpdateWhere sampleDb "j2" [{ id := "a1", attrs := [("status", "moved")] }]⟩

theorem hexChar_injOn : ∀ m, m < 16 → ∀ n, n < 16 → hexChar m = hexChar n → m = n := by
  decide

theorem hexStr_injOn :
    ∀ len m n, m < 16 ^ len → n < 16 ^ len → hexStr len m = hexStr len n → m = n := by
  intro len
  induction len with
  | zero => intro m n hm hn _; omega
  | succ l ih =>
    intro m n hm hn heq
    rw [hexStr, hexStr] at heq
    obtain ⟨hdivs, hmods⟩ :=
      List.append_inj heq (by rw [hexStr_length, hexStr_length])
    have hm16 : m / 16 < 16 ^ l := by
      rw [Nat.div_lt_iff_lt_mul (by norm_num)]
      calc m < 16 ^ (l + 1) := hm
        _ = 16 ^ l * 16 := by rw [pow_succ]
    have hn16 : n / 16 < 16 ^ l := by
      rw [Nat.div_lt_iff_lt_mul (by norm_num)]
      calc n < 16 ^ (l + 1) := hn
        _ = 16 ^ l * 16 := by rw [pow_succ]
    have h1 : m / 16 = n / 16 := ih _ _ hm16 hn16 hdivs
    have h2 : m % 16 = n % 16 := by
      have := List.head_eq_of_cons_eq hmods
      exact hexChar_injOn _ (Nat.mod_lt _ (by norm_num)) _ (Nat.mod_lt _ (by norm_num)) this
    omega

theorem randomUUID_injOn (s1 s2 : Nat) (h1 : s1 < 2 ^ 122) (h2 : s2 < 2 ^ 122)
    (h : randomUUID s1 = randomUUID s2) : s1 = s2 := by
  have hc : uuidChars s1 = uuidChars s2 := by
    have := congrArg String.data h
    simpa [randomUUID] using this
  rw [uuidChars, uuidChars] at hc
  obtain ⟨hg1, hc⟩ := List.append_inj hc (by rw [hexStr_length, hexStr_length])
  obtain ⟨-, hc⟩ := List.cons_eq_cons.mp hc
  obtain ⟨hg2, hc⟩ := List.append_inj hc (by rw [hexStr_length, hexStr_length])
  obtain ⟨-, hc⟩ := List.cons_eq_cons.mp hc
  obtain ⟨-, hc⟩ := List.cons_eq_cons.mp hc
  obtain ⟨hg3, hc⟩ := List.append_inj hc (by rw [hexStr_length, hexStr_length])
  obtain ⟨-, hc⟩ := List.cons_eq_cons.mp hc
  obtain ⟨hv, hc⟩ := List.cons_eq_cons.mp hc
  obtain ⟨hg4, hc⟩ := List.append_inj hc (by rw [hexStr_length, hexStr_length])
  obtain ⟨-, hg5⟩ := List.cons_eq_cons.mp hc
  have e1 : s1 % 2 ^ 32 = s2 % 2 ^ 32 :=
    hexStr_injOn 8 _ _ (by have := Nat.mod_lt s1 (y := 2 ^ 32) (by norm_num); norm_num at this ⊢; omega)
      (by have := Nat.mod_lt s2 (y := 2 ^ 32) (by norm_num); norm_num at this ⊢; omega) hg1
  have e2 : s1 / 2 ^ 32 % 2 ^ 16 = s2 / 2 ^ 32 % 2 ^ 16 :=
    hexStr_injOn 4 _ _ (by have := Nat.mod_lt (s1 / 2 ^ 32) (y := 2 ^ 16) (by norm_num); norm_num at this ⊢; omega)
      (by have := Nat.mod_lt (s2 / 2 ^ 32) (y := 2 ^ 16) (by norm_num); norm_num at this ⊢; omega) hg2
  have e3 : s1 / 2 ^ 48 % 2 ^ 12 = s2 / 2 ^ 48 % 2 ^ 12 :=
    hexStr_injOn 3 _ _ (by have := Nat.mod_lt (s1 / 2 ^ 48) (y := 2 ^ 12) (by norm_num); norm_num at this ⊢; omega)
      (by have := Nat.mod_lt (s2 / 2 ^ 48) (y := 2 ^ 12) (by norm_num); norm_num at this ⊢; omega) hg3
  have e4 : s1 / 2 ^ 60 % 4 = s2 / 2 ^ 60 % 4 := by
    have b1 : s1 / 2 ^ 60 % 4 < 4 := Nat.mod_lt _ (by norm_num)
    have b2 : s2 / 2 ^ 60 % 4 < 4 := Nat.mod_lt _ (by norm_num)
    have := hexChar_injOn (8 + s1 / 2 ^ 60 % 4) (by omega) (8 + s2 / 2 ^ 60 % 4) (by omega) hv
    omega
  have e5 : s1 / 2 ^ 62 % 2 ^ 12 = s2 / 2 ^ 62 % 2 ^ 12 :=
    hexStr_injOn 3 _ _ (by have := Nat.mod_lt (s1 / 2 ^ 62) (y := 2 ^ 12) (by norm_num); norm_num at this ⊢; omega)
      (by have := Nat.mod_lt (s2 / 2 ^ 62) (y := 2 ^ 12) (by norm_num); norm_num at this ⊢; omega) hg4
  have e6 : s1 / 2 ^ 74 % 2 ^ 48 = s2 / 2 ^ 74 % 2 ^ 48 :=
    hexStr_injOn 12 _ _ (by have := Nat.mod_lt (s1 / 2 ^ 74) (y := 2 ^ 48) (by norm_num); norm_num at this ⊢; omega)
      (by have := Nat.mod_lt (s2 / 2 ^ 74) (y := 2 ^ 48) (by norm_num); norm_num at this ⊢; omega) hg5
  norm_num at e1 e2 e3 e5 e6 h1 h2
  omega

/-- C6 counterexample: two distinct bulk submissions accepted at the same
`Date.now()` reading receive the same job identifier, so identifiers of
distinct accepted requests are not always distinct. -/
theorem bulk_jobId_same_tick_collision :
    (bulkUpdateAppointments 1700000000000 [{ id := "a", attrs := [] }]).items ≠
      (bulkUpdateAppointments 1700000000000 [{ id := "b", attrs := [] }]).items ∧
    (bulkUpdateAppointments 1700000000000 [{ id := "a", attrs := [] }]).jobId =
      (bulkUpdateAppointments 1700000000000 [{ id := "b", attrs := [] }]).jobId := by
  exact ⟨by decide, rfl⟩

/-- C6 amended: identifier uniqueness holds only per generator draw.  The
async single-update pattern's ids are version-4 UUIDs and are distinct
whenever the underlying 122 random bits differ; the bulk pattern's job id
is derived from the acceptance timestamp alone, so any two bulk
submissions in the same clock tick share one job id (uniqueness for bulk
jobs requires distinct clock readings). -/
theorem identifier_generation_contract
    (now : Nat) (b1 b2 : List Payload) (s1 s2 : Nat)
    (h1 : s1 < 2 ^ 122) (h2 : s2 < 2 ^ 122) (hne : s1 ≠ s2) :
    (bulkUpdateAppointments now b1).jobId = (bulkUpdateAppointments now b2).jobId ∧
    randomUUID s1 ≠ randomUUID s2 :=
  ⟨rfl, fun h => hne (randomUUID_injOn s1 s2 h1 h2 h)⟩

theorem identifier_generation_contract_witness :
    (0 : Nat) < 2 ^ 122 ∧ (1 : Nat) < 2 ^ 122 ∧ (0 : Nat) ≠ 1 ∧
    ((bulkUpdateAppointments 1700000000000 [{ id := "a", attrs := [] }]).jobId =
        (bulkUpdateAppointments 1700000000000 []).jobId ∧
      randomUUID 0 ≠ randomUUID 1) :=
  ⟨by norm_num, by norm_num, by decide,
   identifier_generation_contract 1700000000000 [{ id := "a", attrs := [] }] [] 0 1
     (by norm_num) (by norm_num) (by decide)⟩

/-- C7 counterexample: `createAppointment` answers 400, not 409, when its
data-store operation raises a unique-constraint violation, because the
handler catches every error locally instead of delegating to
`errorHandler`. -/
theorem create_conflict_returns_400 :
    (createAppointment
        (fun _ => Except.error
          { name := "SequelizeUniqueConstraintError",
            message := "id must be unique", errors := [] })
        (sampleReq "")).status = 400 ∧
    (createAppointment
        (fun _ => Except.error
          { name := "SequelizeUniqueConstraintError",
            message := "id must be unique", errors := [] })
        (sampleReq "")).status ≠ 409 := by
  exact ⟨rfl, by decide⟩

/-- C7 amended: the kind-based mapping (validation to 400,
unique-constraint to 409, anything else to 500) is implemented by the
`errorHandler` middleware, but the synchronous CRUD handlers never reach
it: they catch ORM errors locally and map them uniformly, `create` and
`update` answering 400 for every error kind and `delete` answering 500
for every error kind. -/
theorem error_status_mapping
    (e : JsError) (req : Request) (db : Db) (appt : AppointmentRecord)
    (hfound : findByPk db req.paramsId = some appt) :
    (e.name = "SequelizeValidationError" → (errorHandler e).status = 400) ∧
    (e.name = "SequelizeUniqueConstraintError" → (errorHandler e).status = 409) ∧
    (e.name ≠ "SequelizeValidationError" → e.name ≠ "SequelizeUniqueConstraintError" →
      (errorHandler e).status = 500) ∧
    (createAppointment (fun _ => Except.error e) req).status = 400 ∧
    ((updateAppointment (fun _ _ => Except.error e) db req).2).status = 400 ∧
    ((deleteAppointment (fun _ _ => Except.error e) db req).2).status = 500 := by
  refine ⟨fun hv => ?_, fun hu => ?_, fun hnv hnu => ?_, ?_, ?_, ?_⟩
  · simp [errorHandler, hv]
  · simp [errorHandler, hu]
  · simp [errorHandler, hnv, hnu]
  · simp [createAppointment]
  · simp [updateAppointment, hfound]
  · simp [deleteAppointment, hfound]

theorem error_status_mapping_witness :
    findByPk sampleDb (sampleReq "a1").paramsId =
      some { id := "a1", attrs := [("status", "free")] } ∧
    (let e : JsError :=
      { name := "SequelizeUniqueConstraintError", message := "dup", errors := [] }
     (e.name = "SequelizeValidationError" → (errorHandler e).status = 400) ∧
     (e.name = "SequelizeUniqueConstraintError" → (errorHandler e).status = 409) ∧
     (e.name ≠ "SequelizeValidationError" → e.name ≠ "SequelizeUniqueConstraintError" →
       (errorHandler e).status = 500) ∧
     (createAppointment (fun _ => Except.error e) (sampleReq "a1")).status = 400 ∧
     ((updateAppointment (fun _ _ => Except.error e) sampleDb (sampleReq "a1")).2).status = 400 ∧
     ((deleteAppointment (fun _ _ => Except.error e) sampleDb (sampleReq "a1")).2).status = 500) :=
  ⟨by decide,
   error_status_mapping
     { name := "SequelizeUniqueConstraintError", message := "dup", errors := [] }
     (sampleReq "a1") sampleDb { id := "a1", attrs := [("status", "free")] } (by decide)⟩

/-- C8 (code bug): `updateAppointment` and `deleteAppointment` answer 404
with the not-found message on a missing id, as the claim states, but
`getAppointmentById` does not: its 404 branch references `baseUrl`, which
is scoped to the found branch, so the body construction throws
`ReferenceError: baseUrl is not defined` and the catch answers 500.  This
theorem evaluates the handlers at the failing input (an empty table, id
`a1`). -/
theorem missing_appointment_responses :
    (getAppointmentById [] (sampleReq "a1")).status = 500 ∧
    (getAppointmentById [] (sampleReq "a1")).error = some "baseUrl is not defined" ∧
    (getAppointmentById [] (sampleReq "a1")).message = none ∧
    ((updateAppointment sampleUpd [] (sampleReq "a1")).2).status = 404 ∧
    ((updateAppointment sampleUpd [] (sampleReq "a1")).2).message =
      some "Appointment not found" ∧
    ((deleteAppointment (fun db _ => Except.ok db) [] (sampleReq "a1")).2).status = 404 ∧
    ((deleteAppointment (fun db _ => Except.ok db) [] (sampleReq "a1")).2).message =
      some "Appointment not found" := by
  exact ⟨rfl, rfl, rfl, rfl, rfl, rfl, rfl⟩

theorem getLink_prev_eq (count : Nat) (req : Request) (page limit : QVal) :
    getLink (getAppointments count req page limit) "prev" =
      if 0 < (count + QVal.toNum limit - 1) / QVal.toNum limit ∧ 1 < QVal.toNum page then
        some (reqBaseUrl req ++ "/appointments" ++ "?page=" ++ QVal.subOne page ++
          ("&limit=" ++ QVal.render limit))
      else none := by
  by_cases hT : 0 < (count + QVal.toNum limit - 1) / QVal.toNum limit <;>
  by_cases hp : 1 < QVal.toNum page <;>
  by_cases hn : QVal.toNum page < (count + QVal.toNum limit - 1) / QVal.toNum limit <;>
  simp [getAppointments, getLink, hT, hp, hn]

theorem getLink_next_eq (count : Nat) (req : Request) (page limit : QVal) :
    getLink (getAppointments count req page limit) "next" =
      if QVal.toNum page < (count + QVal.toNum limit - 1) / QVal.toNum limit then
        some (reqBaseUrl req ++ "/appointments" ++ "?page=" ++ QVal.addOne page ++
          ("&limit=" ++ QVal.render limit))
      else none := by
  by_cases hT : 0 < (count + QVal.toNum limit - 1) / QVal.toNum limit <;>
  by_cases hp : 1 < QVal.toNum page <;>
  by_cases hn : QVal.toNum page < (count + QVal.toNum limit - 1) / QVal.toNum limit <;>
  simp [getAppointments, getLink, hT, hp, hn] <;> omega

/-- C9 counterexample: on an empty collection (`totalPages = 0`) the code
emits neither `prev` nor `next`, so for the listing request `page=2,
limit=10` over 0 rows the requested page is after the first page yet
`_links.prev` is absent, refuting the claimed equivalence for every
listing request. -/
theorem prev_absent_on_empty_collection :
    1 < QVal.toNum (QVal.str "2") ∧
    (getAppointments 0 (sampleReq "") (QVal.str "2") (QVal.str "10")).totalPages = 0 ∧
    getLink (getAppointments 0 (sampleReq "") (QVal.str "2") (QVal.str "10")) "prev" =
      none := by
  exact ⟨by decide, by decide, by decide⟩

/-- C9 amended: for `page=2, limit=10` over 25 rows `totalPages = 3`; and
for every listing request with a positive coerced limit, provided the
collection is non-empty (`totalPages > 0`), `_links.next` is present iff
the coerced page is before the last page and `_links.prev` is present iff
it is after the first page; on an empty collection (`totalPages = 0`)
neither link is emitted. -/
theorem pagination_links_contract
    (count : Nat) (req : Request) (page limit : QVal)
    (hl : 0 < QVal.toNum limit) :
    (getAppointments count req page limit).totalPages =
      (count + QVal.toNum limit - 1) / QVal.toNum limit ∧
    (count = 25 → QVal.toNum limit = 10 →
      (getAppointments count req page limit).totalPages = 3) ∧
    (0 < (getAppointments count req page limit).totalPages →
      ((getLink (getAppointments count req page limit) "prev").isSome ↔
        1 < QVal.toNum page) ∧
      ((getLink (getAppointments count req page limit) "next").isSome ↔
        QVal.toNum page < (getAppointments count req page limit).totalPages)) ∧
    ((getAppointments count req page limit).totalPages = 0 →
      getLink (getAppointments count req page limit) "prev" = none ∧
      getLink (getAppointments count req page limit) "next" = none) := by
  have htp : (getAppointments count req page limit).totalPages =
      (count + QVal.toNum limit - 1) / QVal.toNum limit := by
    simp [getAppointments]
  refine ⟨htp, fun hc hl10 => ?_, fun hpos => ⟨?_, ?_⟩, fun hzero => ⟨?_, ?_⟩⟩
  · rw [htp, hc, hl10]
  · rw [getLink_prev_eq]
    rw [htp] at hpos
    by_cases hp : 1 < QVal.toNum page <;> simp [hpos, hp]
  · rw [getLink_next_eq, htp]
    by_cases hn : QVal.toNum page <
        (count + QVal.toNum limit - 1) / QVal.toNum limit <;> simp [hn]
  · rw [getLink_prev_eq]
    rw [htp] at hzero
    simp [hzero]
  · rw [getLink_next_eq]
    rw [htp] at hzero
    simp [hzero]

theorem pagination_links_contract_witness :
    0 < QVal.toNum (QVal.str "10") ∧
    ((getAppointments 25 (sampleReq "") (QVal.str "2") (QVal.str "10")).totalPages =
      (25 + QVal.toNum (QVal.str "10") - 1) / QVal.toNum (QVal.str "10") ∧
    ((25 : Nat) = 25 → QVal.toNum (QVal.str "10") = 10 →
      (getAppointments 25 (sampleReq "") (QVal.str "2") (QVal.str "10")).totalPages = 3) ∧
    (0 < (getAppointments 25 (sampleReq "") (QVal.str "2") (QVal.str "10")).totalPages →
      ((getLink (getAppointments 25 (sampleReq "") (QVal.str "2") (QVal.str "10")) "prev").isSome ↔
        1 < QVal.toNum (QVal.str "2")) ∧
      ((getLink (getAppointments 25 (sampleReq "") (QVal.str "2") (QVal.str "10")) "next").isSome ↔
        QVal.toNum (QVal.str "2") <
          (getAppointments 25 (sampleReq "") (QVal.str "2") (QVal.str "10")).totalPages)) ∧
    ((getAppointments 25 (sampleReq "") (QVal.str "2") (QVal.str "10")).totalPages = 0 →
      getLink (getAppointments 25 (sampleReq "") (QVal.str "2") (QVal.str "10")) "prev" = none ∧
      getLink (getAppointments 25 (sampleReq "") (QVal.str "2") (QVal.str "10")) "next" = none)) :=
  ⟨by decide,
   pagination_links_contract 25 (sampleReq "") (QVal.str "2") (QVal.str "10") (by decide)⟩

/-- C10: when the page parameter is supplied explicitly (hence a string
that parses to `n`) with `1 < n < totalPages`, the `prev` URL carries the
numeric value `n - 1` (JS `-` coerces), but the `next` URL carries the
string concatenation of the raw page value and `"1"` (JS `+` concatenates
a string), not `n + 1`. -/
theorem next_link_string_concat
    (count : Nat) (req : Request) (s : String) (n : Nat) (limit : QVal)
    (hcoerce : QVal.toNum (QVal.str s) = n) (h1 : 1 < n)
    (h2 : n < (getAppointments count req (QVal.str s) limit).totalPages) :
    getLink (getAppointments count req (QVal.str s) limit) "prev" =
      some (reqBaseUrl req ++ "/appointments" ++ "?page=" ++ Nat.repr (n - 1) ++
        ("&limit=" ++ QVal.render limit)) ∧
    getLink (getAppointments count req (QVal.str s) limit) "next" =
      some (reqBaseUrl req ++ "/appointments" ++ "?page=" ++ (s ++ "1") ++
        ("&limit=" ++ QVal.render limit)) := by
  have htp : (getAppointments count req (QVal.str s) limit).totalPages =
      (count + QVal.toNum limit - 1) / QVal.toNum limit := by
    simp [getAppointments]
  rw [htp] at h2
  constructor
  · rw [getLink_prev_eq, hcoerce]
    rw [if_pos ⟨Nat.lt_trans (Nat.lt_trans Nat.zero_lt_one h1) h2, h1⟩]
    rw [show QVal.subOne (QVal.str s) =
      Nat.repr (QVal.toNum (QVal.str s) - 1) from rfl, hcoerce]
  · rw [getLink_next_eq, hcoerce]
    rw [if_pos h2]
    rw [show QVal.addOne (QVal.str s) = s ++ "1" from rfl]

theorem next_link_string_concat_witness :
    QVal.toNum (QVal.str "2") = 2 ∧ 1 < 2 ∧
    2 < (getAppointments 25 (sampleReq "") (QVal.str "2") (QVal.str "10")).totalPages ∧
    (getLink (getAppointments 25 (sampleReq "") (QVal.str "2") (QVal.str "10")) "prev" =
      some (reqBaseUrl (sampleReq "") ++ "/appointments" ++ "?page=" ++ Nat.repr (2 - 1) ++
        ("&limit=" ++ QVal.render (QVal.str "10"))) ∧
    getLink (getAppointments 25 (sampleReq "") (QVal.str "2") (QVal.str "10")) "next" =
      some (reqBaseUrl (sampleReq "") ++ "/appointments" ++ "?page=" ++ ("2" ++ "1") ++
        ("&limit=" ++ QVal.render (QVal.str "10")))) :=
  ⟨by decide, by decide, by decide,
   next_link_string_concat 25 (sampleReq "") "2" 2 (QVal.str "10")
     (by decide) (by decide) (by decide)⟩

end SchedApp
